import Mathlib

/-!
# cef-node-binding: engine lifecycle, context registry, browser registry

A shallow embedding of `src/cef_node_binding.cpp`.

* The file-scope globals (`g_cef_initialized`, `g_cef_app`, `g_contexts`,
  `SimpleClient::browser_map`, the function-local `static int nextClientId`) are the
  fields of `AdapterState`; every exported function is a function from the call's
  arguments and the current state to the JavaScript outcome and the next state.
* `std::map` is a list of entries kept in strictly increasing key order
  (`StdMap.WF`); `find`, `operator[]`-assignment and `erase` walk that list.
* The embedded engine is external.  What it answers (`CefExecuteProcess`'s exit code,
  `CefInitialize`'s result, the handle returned by `CefRequestContext::CreateContext`)
  is an argument of the call; the calls made into it are appended to the ghost field
  `engineCalls`.
* `int` is a 32-bit two's-complement integer (`wrapInt32`).
* A JavaScript string is a Lean `String` (a sequence of Unicode scalar values), a
  JavaScript number that reaches the adapter is an integer.
* A node-addon-api conversion applied to a value of another type
  (`As<String>().Utf8Value()` on a non-string, and likewise for numbers and booleans)
  raises the `TypeError` of the failed N-API call (`napi_string_expected`, ...) and ends
  the native call there, as node-addon-api does when it is built with C++ exceptions.
* Mutexes, `CEF_REQUIRE_UI_THREAD` and `printf` output are not part of the model:
  every function below runs atomically.
-/

namespace CefNodeBinding

/-! ## `std::map` -/

namespace StdMap

variable {κ ν : Type} [LinearOrder κ]

/-- Lookup `m.find(k)`: `none` stands for `m.end()`. -/
def find : List (κ × ν) → κ → Option ν
  | [], _ => none
  | (k', v) :: t, k =>
    if k' < k then find t k
    else if k < k' then none
    else some v

/-- Assignment `m[k] = v`: inserts the entry at its place in key order, or replaces the
value of the entry that has this key. -/
def assign : List (κ × ν) → κ → ν → List (κ × ν)
  | [], k, v => [(k, v)]
  | (k', v') :: t, k, v =>
    if k' < k then (k', v') :: assign t k v
    else if k < k' then (k, v) :: (k', v') :: t
    else (k, v) :: t

/-- Removal `m.erase(k)`: removes the entry that has this key, when there is one. -/
def erase : List (κ × ν) → κ → List (κ × ν)
  | [], _ => []
  | (k', v') :: t, k =>
    if k' < k then (k', v') :: erase t k
    else if k < k' then (k', v') :: t
    else t

/-- Keys in iteration order (`for (auto &kv : m) kv.first`). -/
def keys (m : List (κ × ν)) : List κ := m.map Prod.fst

/-- Representation invariant of `std::map`: keys strictly increasing. -/
def WF (m : List (κ × ν)) : Prop := (keys m).Pairwise (· < ·)

end StdMap

/-! ## JavaScript values and errors -/

/-- JavaScript values that cross the N-API boundary. -/
inductive JsValue where
  | undefined
  | null
  | boolean (b : Bool)
  | number (n : Int)
  | string (s : String)
  | array (elems : List JsValue)
  | object (props : List (String × JsValue))

/-- JavaScript exceptions thrown by the adapter: `Napi::TypeError` and `Napi::Error`. -/
inductive JsError where
  | typeError (message : String)
  | error (message : String)
deriving DecidableEq

/-- Outcome of a native call as JavaScript sees it. -/
abbrev JsResult := Except JsError JsValue

namespace JsValue

/-- Check `Napi::Value::IsObject`. -/
def IsObject : JsValue → Bool
  | array _ => true
  | object _ => true
  | _ => false

/-- Check `Napi::Value::IsString`. -/
def IsString : JsValue → Bool
  | string _ => true
  | _ => false

/-- Check `Napi::Value::IsBoolean`. -/
def IsBoolean : JsValue → Bool
  | boolean _ => true
  | _ => false

/-- Own properties of an object value. -/
def props : JsValue → List (String × JsValue)
  | object ps => ps
  | _ => []

/-- Property test `Napi::Object::Has(name)`. -/
def Has (o : JsValue) (name : String) : Bool :=
  (o.props.lookup name).isSome

/-- Property read `Napi::Object::Get(name)`. -/
def Get (o : JsValue) (name : String) : JsValue :=
  (o.props.lookup name).getD undefined

end JsValue

/-- Two's-complement reduction of an integer to the range of a 32-bit `int`. -/
def wrapInt32 (x : Int) : Int := (x + 2147483648) % 4294967296 - 2147483648

/-- Conversion `As<String>().Utf8Value()`. -/
def Utf8Value : JsValue → Except JsError String
  | .string s => .ok s
  | _ => .error (.typeError "A string was expected")

/-- Conversion `As<Number>().Int32Value()`. -/
def Int32Value : JsValue → Except JsError Int
  | .number n => .ok (wrapInt32 n)
  | _ => .error (.typeError "A number was expected")

/-- Conversion `As<Boolean>().Value()`. -/
def BooleanValue : JsValue → Except JsError Bool
  | .boolean b => .ok b
  | _ => .error (.typeError "A boolean was expected")

/-- Argument access `info[i]`: `undefined` past `info.Length()`. -/
def arg (info : List JsValue) (i : Nat) : JsValue := info.getD i .undefined

/-! ## Adapter state -/

/-- Reference to an engine object (`CefRefPtr<...>`), opaque to the adapter. -/
abbrev Handle := Nat

/-- Calls the adapter makes into the embedded engine.  `CefInitialize` carries the two
settings that depend on the options; `no_sandbox` and `windowless_rendering_enabled`
are always `true`. -/
inductive EngineCall where
  | CefExecuteProcess
  | CefInitialize (remote_debugging_port : Int) (multi_threaded_message_loop : Int)
  | CreateContext (cache_path : String)
  | CreateBrowser (windowless : Bool) (client_id : Int) (url : String) (ctx : Handle)
  | CefShutdown
deriving DecidableEq

/-- The process-wide state of the adapter. -/
structure AdapterState where
  g_cef_initialized : Bool
  /-- Number of `SimpleCefApp` objects constructed so far; `g_cef_app` refers to the
  latest one and is null while this is `0`. -/
  g_cef_app : Nat
  g_contexts : List (String × Handle)
  browser_map : List (Int × Handle)
  nextClientId : Int
  /-- Ghost log of the calls made into the engine, oldest first. -/
  engineCalls : List EngineCall

/-- State of a freshly loaded module. -/
def initialState : AdapterState :=
  { g_cef_initialized := false
    g_cef_app := 0
    g_contexts := []
    browser_map := []
    nextClientId := 1
    engineCalls := [] }

/-- Both registries satisfy the `std::map` invariant. -/
def AdapterState.WF (s : AdapterState) : Prop :=
  StdMap.WF s.g_contexts ∧ StdMap.WF s.browser_map

/-- Settings handed to the engine by the latest `CefInitialize` call
(`remote_debugging_port`, `multi_threaded_message_loop`). -/
def effectiveConfig (s : AdapterState) : Option (Int × Int) :=
  s.engineCalls.reverse.findSome? fun c =>
    match c with
    | .CefInitialize p m => some (p, m)
    | _ => none

/-! ## Error values -/

/-- The `not-initialized-error`. -/
def notInitializedError : JsError := .error "CEF not initialized; call initCEF() first"

/-- The `unknown-context-error`. -/
def unknownContextError : JsError := .error "Unknown contextId"

/-- The `subprocess-launched-error`. -/
def subprocessLaunchedError : JsError := .error "CEF subprocess launched unexpectedly"

/-- The `init-failed-error`. -/
def initFailedError : JsError := .error "Failed to initialize CEF"

/-! ## Signals: `SimpleClient` life-span callbacks -/

/-- Callback `SimpleClient::OnAfterCreated`, for a browser whose `GetIdentifier()` is
`identifier`. -/
def OnAfterCreated (identifier : Int) (browser : Handle) (s : AdapterState) : AdapterState :=
  { s with browser_map := StdMap.assign s.browser_map identifier browser }

/-- Callback `SimpleClient::OnBeforeClose`. -/
def OnBeforeClose (identifier : Int) (s : AdapterState) : AdapterState :=
  { s with browser_map := StdMap.erase s.browser_map identifier }

/-- Callback `SimpleClient::DoClose`: the close is never vetoed. -/
def DoClose (_browser : Handle) : Bool := false

/-! ## Exported functions -/

/-- Function `make_key_from_path`. -/
def make_key_from_path (p : String) : String := p

/-- The two recognised options of `initCEF`, read from `info[0]` when it is present:
`(remote_debugging_port, multi_threaded)`. -/
def readOptions (info : List JsValue) : Except JsError (Int × Bool) :=
  if info.length > 0 then
    let opts := arg info 0
    match (if opts.Has "remoteDebuggingPort" then Int32Value (opts.Get "remoteDebuggingPort")
           else .ok 9222) with
    | .error e => .error e
    | .ok remote_debugging_port =>
      match (if opts.Has "multiThreadedMessageLoop" then
               BooleanValue (opts.Get "multiThreadedMessageLoop")
             else .ok true) with
      | .error e => .error e
      | .ok multi_threaded => .ok (remote_debugging_port, multi_threaded)
  else .ok (9222, true)

/-- Function `InitCEF`; `exit_code` is what `CefExecuteProcess` returns and `init_ok`
what `CefInitialize` returns, should the call reach them. -/
def InitCEF (info : List JsValue) (exit_code : Int) (init_ok : Bool) (s : AdapterState) :
    JsResult × AdapterState :=
  if s.g_cef_initialized then (.ok (.boolean true), s)
  else if info.length > 0 ∧ ¬ (arg info 0).IsObject then
    (.error (.typeError "options must be an object"), s)
  else
    match readOptions info with
    | .error e => (.error e, s)
    | .ok (remote_debugging_port, multi_threaded) =>
      let s1 := { s with g_cef_app := s.g_cef_app + 1
                         engineCalls := s.engineCalls ++ [.CefExecuteProcess] }
      if exit_code ≥ 0 then (.error subprocessLaunchedError, s1)
      else
        let s2 := { s1 with engineCalls := s1.engineCalls ++
                      [.CefInitialize remote_debugging_port (if multi_threaded then 1 else 0)] }
        if ¬ init_ok then (.error initFailedError, s2)
        else (.ok (.boolean true), { s2 with g_cef_initialized := true })

/-- Function `CreateContext`; `ctx` is the handle `CefRequestContext::CreateContext`
returns, should the call reach it. -/
def CreateContext (info : List JsValue) (ctx : Handle) (s : AdapterState) :
    JsResult × AdapterState :=
  if ¬ s.g_cef_initialized then (.error notInitializedError, s)
  else if info.length < 1 ∨ ¬ (arg info 0).IsString then
    (.error (.typeError "cachePath (string) required"), s)
  else
    match Utf8Value (arg info 0) with
    | .error e => (.error e, s)
    | .ok cache_path =>
      let id := make_key_from_path cache_path
      (.ok (.string id),
        { s with g_contexts := StdMap.assign s.g_contexts id ctx
                 engineCalls := s.engineCalls ++ [.CreateContext cache_path] })

/-- Function `CreateBrowser`. -/
def CreateBrowser (info : List JsValue) (s : AdapterState) : JsResult × AdapterState :=
  if ¬ s.g_cef_initialized then (.error notInitializedError, s)
  else if info.length < 2 then
    (.error (.typeError "createBrowser(contextId, url[, windowless])"), s)
  else
    match Utf8Value (arg info 0) with
    | .error e => (.error e, s)
    | .ok ctxId =>
      match Utf8Value (arg info 1) with
      | .error e => (.error e, s)
      | .ok url =>
        let windowless :=
          if info.length ≥ 3 then
            match arg info 2 with
            | .boolean b => b
            | _ => true
          else true
        match StdMap.find s.g_contexts ctxId with
        | none => (.error unknownContextError, s)
        | some ctx =>
          let myClientId := s.nextClientId
          (.ok (.number myClientId),
            { s with nextClientId := wrapInt32 (s.nextClientId + 1)
                     engineCalls := s.engineCalls ++
                       [.CreateBrowser windowless myClientId url ctx] })

/-- Function `GetContexts`: the keys of `g_contexts` in iteration order, stored at the
indices `0, 1, 2, ...` of a new array. -/
def GetContexts (_info : List JsValue) (s : AdapterState) : JsResult × AdapterState :=
  (.ok (.array ((StdMap.keys s.g_contexts).map .string)), s)

/-- Function `DisposeContext`. -/
def DisposeContext (info : List JsValue) (s : AdapterState) : JsResult × AdapterState :=
  if info.length < 1 ∨ ¬ (arg info 0).IsString then
    (.error (.typeError "contextId required"), s)
  else
    match Utf8Value (arg info 0) with
    | .error e => (.error e, s)
    | .ok id =>
      match StdMap.find s.g_contexts id with
      | none => (.error unknownContextError, s)
      | some _ => (.ok (.boolean true), { s with g_contexts := StdMap.erase s.g_contexts id })

/-- Function `ShutdownCEF`. -/
def ShutdownCEF (_info : List JsValue) (s : AdapterState) : JsResult × AdapterState :=
  if ¬ s.g_cef_initialized then (.ok (.boolean true), s)
  else
    (.ok (.boolean true),
      { s with g_cef_initialized := false
               engineCalls := s.engineCalls ++ [.CefShutdown] })

/-! ## Sequences of calls -/

/-- One step of the adapter's history: a call from the host (with the engine's answers
it may consume) or a signal from the engine. -/
inductive Call where
  | initCEF (info : List JsValue) (exit_code : Int) (init_ok : Bool)
  | createContext (info : List JsValue) (ctx : Handle)
  | createBrowser (info : List JsValue)
  | getContexts (info : List JsValue)
  | disposeContext (info : List JsValue)
  | shutdownCEF (info : List JsValue)
  | onAfterCreated (identifier : Int) (browser : Handle)
  | onBeforeClose (identifier : Int)

/-- Outcome and next state of one step. -/
def step (s : AdapterState) : Call → JsResult × AdapterState
  | .initCEF info exit_code init_ok => InitCEF info exit_code init_ok s
  | .createContext info ctx => CreateContext info ctx s
  | .createBrowser info => CreateBrowser info s
  | .getContexts info => GetContexts info s
  | .disposeContext info => DisposeContext info s
  | .shutdownCEF info => ShutdownCEF info s
  | .onAfterCreated identifier browser => (.ok .undefined, OnAfterCreated identifier browser s)
  | .onBeforeClose identifier => (.ok .undefined, OnBeforeClose identifier s)

/-- State after a sequence of steps. -/
def run (s : AdapterState) : List Call → AdapterState
  | [] => s
  | c :: cs => run (step s c).2 cs

/-- A history that initializes the engine, creates the context `cacheA` and shuts the
engine down. -/
def shutdownWithContext : List Call :=
  [.initCEF [] (-1) true, .createContext [.string "cacheA"] 0, .shutdownCEF []]

namespace StdMap

variable {κ ν : Type} [LinearOrder κ]

theorem find_assign_self (m : List (κ × ν)) (k : κ) (v : ν) :
    find (assign m k v) k = some v := by
  induction m with
  | nil => simp [assign, find]
  | cons e t ih =>
    obtain ⟨k', v'⟩ := e
    by_cases h1 : k' < k
    · simp [assign, find, h1, ih]
    · by_cases h2 : k < k' <;> simp [assign, find, h1, h2]

theorem find_assign_of_ne (m : List (κ × ν)) (k j : κ) (v : ν) (hne : j ≠ k) :
    find (assign m k v) j = find m j := by
  induction m with
  | nil =>
    rcases lt_or_gt_of_ne hne with h | h
    · simp [assign, find, h, not_lt_of_gt h]
    · have h' : k < j := h
      simp [assign, find, h']
  | cons e t ih =>
    obtain ⟨k', v'⟩ := e
    by_cases h1 : k' < k
    · simp [assign, find, h1, ih]
    · by_cases h2 : k < k'
      · simp only [assign, h1, h2, if_false, if_true, find]
        rcases lt_or_gt_of_ne hne with h | h
        · have h3 : ¬ k < j := not_lt_of_gt h
          have h4 : ¬ k' < j := not_lt_of_gt (lt_trans h h2)
          have h5 : j < k' := lt_trans h h2
          simp [h, h3, h4, h5]
        · have h' : k < j := h
          simp [h']
      · have hk : k' = k := le_antisymm (not_lt.mp h2) (not_lt.mp h1)
        subst hk
        rcases lt_or_gt_of_ne hne with h | h
        · simp [assign, find, h, not_lt_of_gt h]
        · have h' : k' < j := h
          simp [assign, find, h']

theorem mem_keys_assign_self (m : List (κ × ν)) (k : κ) (v : ν) :
    k ∈ keys (assign m k v) := by
  induction m with
  | nil => simp [assign, keys]
  | cons e t ih =>
    obtain ⟨k', v'⟩ := e
    by_cases h1 : k' < k
    · simp only [assign, h1, if_true, keys, List.map_cons, List.mem_cons]
      exact Or.inr ih
    · by_cases h2 : k < k' <;> simp [assign, keys, h1, h2]

theorem mem_keys_assign (m : List (κ × ν)) (k j : κ) (v : ν)
    (h : j ∈ keys (assign m k v)) : j = k ∨ j ∈ keys m := by
  induction m with
  | nil => simpa [assign, keys] using h
  | cons e t ih =>
    obtain ⟨k', v'⟩ := e
    by_cases h1 : k' < k
    · simp only [assign, h1, if_true, keys, List.map_cons, List.mem_cons] at h ⊢
      rcases h with h | h
      · exact Or.inr (Or.inl h)
      · rcases ih h with h | h
        · exact Or.inl h
        · exact Or.inr (Or.inr h)
    · by_cases h2 : k < k'
      · simp only [assign, h1, h2, if_false, if_true, keys, List.map_cons, List.mem_cons] at h ⊢
        exact h
      · simp only [assign, h1, h2, if_false, keys, List.map_cons, List.mem_cons] at h ⊢
        rcases h with h | h
        · exact Or.inl h
        · exact Or.inr (Or.inr h)

theorem keys_assign_filter [DecidableEq κ] (m : List (κ × ν)) (k : κ) (v : ν) :
    (keys (assign m k v)).filter (fun j => decide (j ≠ k)) =
      (keys m).filter (fun j => decide (j ≠ k)) := by
  induction m with
  | nil => simp [assign, keys]
  | cons e t ih =>
    obtain ⟨k', v'⟩ := e
    by_cases h1 : k' < k
    · simp only [keys] at ih
      simp only [assign, h1, if_true, keys, List.map_cons, List.filter_cons, ih]
    · by_cases h2 : k < k'
      · simp [assign, h1, h2, keys, List.filter_cons]
      · have hk : k' = k := le_antisymm (not_lt.mp h2) (not_lt.mp h1)
        subst hk
        simp [assign, keys, List.filter_cons]

theorem WF_assign (m : List (κ × ν)) (k : κ) (v : ν) (h : WF m) : WF (assign m k v) := by
  induction m with
  | nil => simp [assign, WF, keys]
  | cons e t ih =>
    obtain ⟨k', v'⟩ := e
    have ht : WF t := by
      simp only [WF, keys, List.map_cons, List.pairwise_cons] at h ⊢
      exact h.2
    have hhd : ∀ j ∈ keys t, k' < j := by
      simp only [WF, keys, List.map_cons, List.pairwise_cons] at h ⊢
      exact h.1
    by_cases h1 : k' < k
    · simp only [assign, h1, if_true, WF, keys, List.map_cons, List.pairwise_cons]
      refine ⟨?_, ih ht⟩
      intro j hj
      rcases mem_keys_assign t k j v hj with hjk | hjt
      · exact hjk ▸ h1
      · exact hhd j hjt
    · by_cases h2 : k < k'
      · simp only [assign, h1, h2, if_false, if_true, WF, keys, List.map_cons,
          List.pairwise_cons, List.mem_cons]
        refine ⟨?_, hhd, ht⟩
        intro j hj
        rcases hj with hj | hj
        · exact hj ▸ h2
        · exact lt_trans h2 (hhd j hj)
      · have hk : k' = k := le_antisymm (not_lt.mp h2) (not_lt.mp h1)
        subst hk
        simp only [assign, h1, if_false, WF, keys, List.map_cons, List.pairwise_cons]
        exact ⟨hhd, ht⟩

theorem WF.nodup {m : List (κ × ν)} (h : WF m) : (keys m).Nodup := by
  unfold WF at h
  exact h.imp (fun hab => ne_of_lt hab)

theorem count_keys_assign [DecidableEq κ] (m : List (κ × ν)) (k : κ) (v : ν) (h : WF m) :
    (keys (assign m k v)).count k = 1 :=
  List.count_eq_one_of_mem (WF_assign m k v h).nodup (mem_keys_assign_self m k v)

theorem WF_tail {e : κ × ν} {t : List (κ × ν)} (h : WF (e :: t)) : WF t := by
  simp only [WF, keys, List.map_cons, List.pairwise_cons] at h ⊢
  exact h.2

theorem WF_head_lt {e : κ × ν} {t : List (κ × ν)} (h : WF (e :: t)) :
    ∀ j ∈ keys t, e.1 < j := by
  simp only [WF, keys, List.map_cons, List.pairwise_cons] at h ⊢
  exact h.1

theorem find_eq_none_of_not_mem (m : List (κ × ν)) (k : κ) (h : k ∉ keys m) :
    find m k = none := by
  induction m with
  | nil => simp [find]
  | cons e t ih =>
    obtain ⟨k', v'⟩ := e
    simp only [keys, List.map_cons, List.mem_cons, not_or] at h
    by_cases h1 : k' < k
    · simp only [find, h1, if_true]
      exact ih h.2
    · by_cases h2 : k < k'
      · simp [find, h1, h2]
      · exact absurd (le_antisymm (not_lt.mp h1) (not_lt.mp h2)) h.1

theorem mem_keys_of_find_eq_some (m : List (κ × ν)) (k : κ) (v : ν)
    (h : find m k = some v) : k ∈ keys m := by
  by_contra hk
  rw [find_eq_none_of_not_mem m k hk] at h
  exact Option.noConfusion h

theorem find_isSome_of_mem (m : List (κ × ν)) (k : κ) (hwf : WF m) (h : k ∈ keys m) :
    ∃ v, find m k = some v := by
  induction m with
  | nil => simp [keys] at h
  | cons e t ih =>
    obtain ⟨k', v'⟩ := e
    simp only [keys, List.map_cons, List.mem_cons] at h
    rcases h with h | h
    · subst h
      exact ⟨v', by simp [find]⟩
    · have hlt : k' < k := WF_head_lt hwf k h
      obtain ⟨v, hv⟩ := ih (WF_tail hwf) h
      exact ⟨v, by simp [find, hlt, hv]⟩

theorem erase_of_find_eq_none (m : List (κ × ν)) (k : κ) (h : find m k = none) :
    erase m k = m := by
  induction m with
  | nil => simp [erase]
  | cons e t ih =>
    obtain ⟨k', v'⟩ := e
    by_cases h1 : k' < k
    · simp only [find, h1, if_true] at h
      simp [erase, h1, ih h]
    · by_cases h2 : k < k'
      · simp [erase, h1, h2]
      · simp [find, h1, h2] at h

theorem keys_erase [DecidableEq κ] (m : List (κ × ν)) (k : κ) (hwf : WF m) :
    keys (erase m k) = (keys m).filter (fun j => decide (j ≠ k)) := by
  induction m with
  | nil => simp [erase, keys]
  | cons e t ih =>
    obtain ⟨k', v'⟩ := e
    have hgt : ∀ j ∈ keys t, k' < j := WF_head_lt hwf
    have hkeep : ∀ b, b < k' ∨ b = k' →
        (keys t).filter (fun j => decide (j ≠ b)) = keys t := by
      intro b hb
      apply List.filter_eq_self.mpr
      intro j hj
      have hlt : b < j := by
        rcases hb with hb | hb
        · exact lt_trans hb (hgt j hj)
        · exact hb ▸ hgt j hj
      simpa using ne_of_gt hlt
    by_cases h1 : k' < k
    · have ih' := ih (WF_tail hwf)
      simp only [keys] at ih'
      simp [erase, h1, keys, List.filter_cons, ne_of_lt h1, ih']
    · by_cases h2 : k < k'
      · have hk := hkeep k (Or.inl h2)
        simp only [keys] at hk
        simp only [erase, h1, h2, if_false, if_true, keys, List.map_cons, List.filter_cons]
        rw [hk]
        simp [ne_of_gt h2]
      · have hkk : k' = k := le_antisymm (not_lt.mp h2) (not_lt.mp h1)
        subst hkk
        have hk := hkeep k' (Or.inr rfl)
        simp only [keys] at hk
        simp only [erase, h1, if_false, keys, List.map_cons, List.filter_cons]
        rw [hk]
        simp

theorem not_mem_keys_erase (m : List (κ × ν)) (k : κ) (hwf : WF m) :
    k ∉ keys (erase m k) := by
  rw [keys_erase m k hwf]
  simp

theorem WF_erase (m : List (κ × ν)) (k : κ) (hwf : WF m) : WF (erase m k) := by
  unfold WF
  rw [keys_erase m k hwf]
  exact List.Pairwise.filter _ hwf

theorem find_erase_self (m : List (κ × ν)) (k : κ) (hwf : WF m) :
    find (erase m k) k = none :=
  find_eq_none_of_not_mem _ _ (not_mem_keys_erase m k hwf)

theorem find_erase_of_ne (m : List (κ × ν)) (k j : κ) (hwf : WF m) (hne : j ≠ k) :
    find (erase m k) j = find m j := by
  induction m with
  | nil => simp [erase]
  | cons e t ih =>
    obtain ⟨k', v'⟩ := e
    by_cases h1 : k' < k
    · simp [erase, find, h1, ih (WF_tail hwf)]
    · by_cases h2 : k < k'
      · simp [erase, h1, h2]
      · have hkk : k' = k := le_antisymm (not_lt.mp h2) (not_lt.mp h1)
        subst hkk
        simp only [erase, h1, if_false, find]
        rcases lt_or_gt_of_ne hne with h | h
        · have hnot : j ∉ keys t := fun hj => lt_asymm h (WF_head_lt hwf j hj)
          simp [h, not_lt_of_gt h, find_eq_none_of_not_mem t j hnot]
        · have h' : k' < j := h
          simp [h']

end StdMap

/-! ## The registries stay well-formed -/

theorem WF_initialState : initialState.WF := by
  simp [AdapterState.WF, initialState, StdMap.WF, StdMap.keys]

theorem WF_step (s : AdapterState) (c : Call) (h : s.WF) : (step s c).2.WF := by
  obtain ⟨hc, hb⟩ := h
  cases c with
  | initCEF info exit_code init_ok =>
    simp only [step, InitCEF]
    split
    · exact ⟨hc, hb⟩
    · split
      · exact ⟨hc, hb⟩
      · split
        · exact ⟨hc, hb⟩
        · split
          · exact ⟨hc, hb⟩
          · split <;> exact ⟨hc, hb⟩
  | createContext info ctx =>
    simp only [step, CreateContext]
    split
    · exact ⟨hc, hb⟩
    · split
      · exact ⟨hc, hb⟩
      · split
        · exact ⟨hc, hb⟩
        · exact ⟨StdMap.WF_assign _ _ _ hc, hb⟩
  | createBrowser info =>
    simp only [step, CreateBrowser]
    split
    · exact ⟨hc, hb⟩
    · split
      · exact ⟨hc, hb⟩
      · split
        · exact ⟨hc, hb⟩
        · split
          · exact ⟨hc, hb⟩
          · split <;> exact ⟨hc, hb⟩
  | getContexts info => exact ⟨hc, hb⟩
  | disposeContext info =>
    simp only [step, DisposeContext]
    split
    · exact ⟨hc, hb⟩
    · split
      · exact ⟨hc, hb⟩
      · split
        · exact ⟨hc, hb⟩
        · exact ⟨StdMap.WF_erase _ _ hc, hb⟩
  | shutdownCEF info =>
    simp only [step, ShutdownCEF]
    split <;> exact ⟨hc, hb⟩
  | onAfterCreated identifier browser => exact ⟨hc, StdMap.WF_assign _ _ _ hb⟩
  | onBeforeClose identifier => exact ⟨hc, StdMap.WF_erase _ _ hb⟩

theorem WF_run (s : AdapterState) (calls : List Call) (h : s.WF) : (run s calls).WF := by
  induction calls generalizing s with
  | nil => exact h
  | cons c cs ih => exact ih _ (WF_step s c h)

/-! ## Conversions -/

theorem Utf8Value_error (v : JsValue) (e : JsError) (h : Utf8Value v = .error e) :
    e = .typeError "A string was expected" := by
  cases v <;> simp [Utf8Value] at h <;> exact h.symm

theorem Utf8Value_ok (v : JsValue) (x : String) (h : Utf8Value v = .ok x) :
    v = .string x := by
  cases v <;> simp [Utf8Value] at h
  rw [h]

/-! ## DisposeContext and CreateContext on a string argument -/

theorem DisposeContext_found (s : AdapterState) (id : String) (rest : List JsValue)
    (ctx : Handle) (h : StdMap.find s.g_contexts id = some ctx) :
    DisposeContext (.string id :: rest) s =
      (.ok (.boolean true), { s with g_contexts := StdMap.erase s.g_contexts id }) := by
  simp [DisposeContext, arg, JsValue.IsString, Utf8Value, h]

theorem DisposeContext_missing (s : AdapterState) (id : String) (rest : List JsValue)
    (h : StdMap.find s.g_contexts id = none) :
    DisposeContext (.string id :: rest) s = (.error unknownContextError, s) := by
  simp [DisposeContext, arg, JsValue.IsString, Utf8Value, h]

theorem CreateContext_string (s : AdapterState) (k : String) (rest : List JsValue)
    (ctx : Handle) (h : s.g_cef_initialized = true) :
    CreateContext (.string k :: rest) ctx s =
      (.ok (.string k),
        { s with g_contexts := StdMap.assign s.g_contexts k ctx
                 engineCalls := s.engineCalls ++ [.CreateContext k] }) := by
  simp [CreateContext, arg, JsValue.IsString, Utf8Value, make_key_from_path, h]

/-! ## C1: createContext and createBrowser before initialization -/

/-- C1: in every state whose engine flag is off and for every argument list,
`CreateContext` and `CreateBrowser` both throw the not-initialized error and return the
state they were given, so the two registries and the correlation-id counter are the
ones from before the call. -/
theorem C1_create_requires_init (s : AdapterState) (info : List JsValue) (ctx : Handle)
    (h : s.g_cef_initialized = false) :
    CreateContext info ctx s = (.error notInitializedError, s) ∧
    CreateBrowser info s = (.error notInitializedError, s) ∧
    (CreateContext info ctx s).2.g_contexts = s.g_contexts ∧
    (CreateContext info ctx s).2.browser_map = s.browser_map ∧
    (CreateContext info ctx s).2.nextClientId = s.nextClientId ∧
    (CreateBrowser info s).2.g_contexts = s.g_contexts ∧
    (CreateBrowser info s).2.browser_map = s.browser_map ∧
    (CreateBrowser info s).2.nextClientId = s.nextClientId := by
  have h1 : CreateContext info ctx s = (.error notInitializedError, s) := by
    simp [CreateContext, h]
  have h2 : CreateBrowser info s = (.error notInitializedError, s) := by
    simp [CreateBrowser, h]
  simp [h1, h2]

/-- C1 at the initial state, with a number as the only argument. -/
theorem C1_create_requires_init_witness :
    initialState.g_cef_initialized = false ∧
    CreateContext [.number 7] 0 initialState = (.error notInitializedError, initialState) ∧
    CreateBrowser [.number 7] initialState = (.error notInitializedError, initialState) :=
  have h := C1_create_requires_init initialState [.number 7] 0 rfl
  ⟨rfl, h.1, h.2.1⟩

/-! ## C2: listContexts and disposeContext before initialization -/

/-- C2, as stated, fails: in the initial state (engine not initialized) `GetContexts`
succeeds with the empty array and `DisposeContext` reports an unknown context rather
than the not-initialized error; and in the not-initialized state reached by
init, createContext("cacheA"), shutdown, `DisposeContext("cacheA")` succeeds and
empties the registry. -/
theorem C2_counterexample :
    initialState.g_cef_initialized = false ∧
    (GetContexts [] initialState).1 = .ok (.array []) ∧
    (DisposeContext [.string "cacheA"] initialState).1 = .error unknownContextError ∧
    unknownContextError ≠ notInitializedError ∧
    (run initialState shutdownWithContext).g_cef_initialized = false ∧
    (run initialState shutdownWithContext).g_contexts = [("cacheA", 0)] ∧
    (DisposeContext [.string "cacheA"] (run initialState shutdownWithContext)).1
      = .ok (.boolean true) ∧
    (DisposeContext [.string "cacheA"] (run initialState shutdownWithContext)).2.g_contexts
      = [] := by
  have hrun : run initialState shutdownWithContext =
      { g_cef_initialized := false, g_cef_app := 1, g_contexts := [("cacheA", 0)],
        browser_map := [], nextClientId := 1,
        engineCalls := [.CefExecuteProcess, .CefInitialize 9222 1, .CreateContext "cacheA",
          .CefShutdown] } := by
    simp [run, step, shutdownWithContext, initialState, InitCEF, readOptions, CreateContext,
      ShutdownCEF, arg, JsValue.IsString, Utf8Value, make_key_from_path, StdMap.assign]
  rw [hrun]
  refine ⟨rfl, ?_, ?_, ?_, rfl, rfl, ?_, ?_⟩
  · simp [GetContexts, initialState, StdMap.keys]
  · simp [DisposeContext, initialState, arg, JsValue.IsString, Utf8Value, StdMap.find]
  · simp [unknownContextError, notInitializedError]
  · simp [DisposeContext, arg, JsValue.IsString, Utf8Value, StdMap.find]
  · simp [DisposeContext, arg, JsValue.IsString, Utf8Value, StdMap.find, StdMap.erase]

/-- C2, amended: in every state whose engine flag is off, `GetContexts` succeeds with
the registry's keys and returns the state unchanged; `DisposeContext` never throws the
not-initialized error: it throws a type error when the first argument is missing or is
not a string and the unknown-context error when the id is not registered, returning
the state unchanged in both cases, and for a registered id it succeeds and erases that
id from the registry. -/
theorem C2_list_dispose_uninitialized (s : AdapterState) (info : List JsValue)
    (h : s.g_cef_initialized = false) :
    GetContexts info s = (.ok (.array ((StdMap.keys s.g_contexts).map .string)), s) ∧
    (DisposeContext info s).1 ≠ .error notInitializedError ∧
    (info.length < 1 ∨ (arg info 0).IsString = false →
      DisposeContext info s = (.error (.typeError "contextId required"), s)) ∧
    (∀ (id : String) (rest : List JsValue), info = .string id :: rest →
      (StdMap.find s.g_contexts id = none →
        DisposeContext info s = (.error unknownContextError, s)) ∧
      (∀ ctx, StdMap.find s.g_contexts id = some ctx →
        DisposeContext info s =
          (.ok (.boolean true), { s with g_contexts := StdMap.erase s.g_contexts id }))) := by
  have _ := h
  refine ⟨rfl, ?_, ?_, ?_⟩
  · unfold DisposeContext
    split
    · simp [notInitializedError]
    · split
      · rename_i e he
        rw [Utf8Value_error _ _ he]
        simp [notInitializedError]
      · split <;> simp [unknownContextError, notInitializedError]
  · intro hbad
    unfold DisposeContext
    rw [if_pos]
    rcases hbad with hl | hs
    · exact Or.inl hl
    · exact Or.inr (by simp [hs])
  · intro id rest hinfo
    subst hinfo
    constructor
    · intro hnone
      simp [DisposeContext, arg, JsValue.IsString, Utf8Value, hnone]
    · intro ctx hsome
      simp [DisposeContext, arg, JsValue.IsString, Utf8Value, hsome]

/-- C2, amended, at the initial state with no arguments. -/
theorem C2_list_dispose_uninitialized_witness :
    initialState.g_cef_initialized = false ∧
    GetContexts [] initialState =
      (.ok (.array ((StdMap.keys initialState.g_contexts).map .string)), initialState) ∧
    (DisposeContext [] initialState).1 ≠ .error notInitializedError :=
  have h := C2_list_dispose_uninitialized initialState [] rfl
  ⟨rfl, h.1, h.2.1⟩

/-! ## C3: a second initCEF -/

theorem InitCEF_initialized (s : AdapterState) (info : List JsValue) (exit_code : Int)
    (init_ok : Bool) (h : s.g_cef_initialized = true) :
    InitCEF info exit_code init_ok s = (.ok (.boolean true), s) := by
  simp [InitCEF, h]

theorem InitCEF_ok (s : AdapterState) (info : List JsValue) (exit_code : Int)
    (init_ok : Bool) (v : JsValue) (hs : s.g_cef_initialized = false)
    (h : (InitCEF info exit_code init_ok s).1 = .ok v) :
    ∃ p m, readOptions info = .ok (p, m) ∧ exit_code < 0 ∧ init_ok = true ∧
      v = .boolean true ∧
      (InitCEF info exit_code init_ok s).2 =
        { s with g_cef_initialized := true
                 g_cef_app := s.g_cef_app + 1
                 engineCalls := s.engineCalls ++ [.CefExecuteProcess] ++
                   [.CefInitialize p (if m then 1 else 0)] } := by
  unfold InitCEF at h
  rw [if_neg (by simp [hs])] at h
  split at h
  · simp at h
  · rename_i hobj
    split at h
    · simp at h
    · rename_i p m hopt
      by_cases he : exit_code ≥ 0
      · simp [he] at h
      · by_cases hok : init_ok = true
        · simp only [he, hok, if_false, if_true] at h
          refine ⟨p, m, hopt, by omega, hok, ?_, ?_⟩
          · simpa using h.symm
          · unfold InitCEF
            rw [if_neg (by simp [hs]), if_neg hobj]
            simp [hopt, he, hok]
        · simp [he, hok] at h

theorem effectiveConfig_snoc (t : AdapterState) (cs : List EngineCall) (p m : Int)
    (h : t.engineCalls = cs ++ [.CefInitialize p m]) : effectiveConfig t = some (p, m) := by
  simp [effectiveConfig, h, List.reverse_append, List.findSome?_cons]

/-- C3: if `InitCEF` succeeds on a state whose engine flag is off, then a following
`InitCEF`, with any argument list and any engine answers, returns `true` and returns
the state it was given: the flag stays on, no call into the engine is added, both
registries and the counter are untouched, and the settings in force are still the ones
read from the first call's options. -/
theorem C3_init_idempotent (s : AdapterState) (c1 c2 : List JsValue) (exit1 exit2 : Int)
    (ok1 ok2 : Bool) (v : JsValue) (hs : s.g_cef_initialized = false)
    (h1 : (InitCEF c1 exit1 ok1 s).1 = .ok v) :
    InitCEF c2 exit2 ok2 (InitCEF c1 exit1 ok1 s).2 =
      (.ok (.boolean true), (InitCEF c1 exit1 ok1 s).2) ∧
    (InitCEF c1 exit1 ok1 s).2.g_cef_initialized = true ∧
    (InitCEF c2 exit2 ok2 (InitCEF c1 exit1 ok1 s).2).2.engineCalls =
      (InitCEF c1 exit1 ok1 s).2.engineCalls ∧
    (∃ p m, readOptions c1 = .ok (p, m) ∧
      effectiveConfig (InitCEF c1 exit1 ok1 s).2 = some (p, if m then 1 else 0) ∧
      effectiveConfig (InitCEF c2 exit2 ok2 (InitCEF c1 exit1 ok1 s).2).2 =
        some (p, if m then 1 else 0)) := by
  obtain ⟨p, m, hopt, _, _, _, hst⟩ := InitCEF_ok s c1 exit1 ok1 v hs h1
  have hinit : (InitCEF c1 exit1 ok1 s).2.g_cef_initialized = true := by rw [hst]
  have h2 := InitCEF_initialized (InitCEF c1 exit1 ok1 s).2 c2 exit2 ok2 hinit
  have hcfg : effectiveConfig (InitCEF c1 exit1 ok1 s).2 = some (p, if m then 1 else 0) := by
    apply effectiveConfig_snoc _ (s.engineCalls ++ [.CefExecuteProcess])
    rw [hst]
  refine ⟨h2, hinit, by rw [h2], p, m, hopt, hcfg, by rw [h2]; exact hcfg⟩

/-- C3 at the initial state: the first call sets port 9333, the second call is given a
number instead of an options object and engine answers that would make a first call
fail. -/
theorem C3_init_idempotent_witness :
    initialState.g_cef_initialized = false ∧
    InitCEF [.number 5] 0 false
        (InitCEF [.object [("remoteDebuggingPort", .number 9333)]] (-1) true initialState).2 =
      (.ok (.boolean true),
        (InitCEF [.object [("remoteDebuggingPort", .number 9333)]] (-1) true initialState).2) :=
  ⟨rfl,
    (C3_init_idempotent initialState [.object [("remoteDebuggingPort", .number 9333)]]
      [.number 5] (-1) 0 true false (.boolean true) rfl
      (by simp [InitCEF, initialState, arg, JsValue.IsObject, readOptions, JsValue.Has,
            JsValue.Get, JsValue.props, List.lookup, Int32Value])).1⟩

/-! ## C9: a call that throws changes nothing -/

theorem ShutdownCEF_ok (s : AdapterState) (info : List JsValue) :
    (ShutdownCEF info s).1 = .ok (.boolean true) := by
  unfold ShutdownCEF
  split <;> rfl

/-- C10: in every state `ShutdownCEF` returns `true` and leaves the context registry,
the browser registry and the correlation-id counter as they were; with the engine flag
off it returns the state unchanged; a second `ShutdownCEF` in a row returns the state
unchanged, so it adds no engine call; after it `GetContexts` returns what it returned
before and every registered context id is still accepted by `DisposeContext`. -/
theorem C10_shutdown_frame (s : AdapterState) (info info2 : List JsValue) :
    (ShutdownCEF info s).1 = .ok (.boolean true) ∧
    (ShutdownCEF info s).2.g_contexts = s.g_contexts ∧
    (ShutdownCEF info s).2.browser_map = s.browser_map ∧
    (ShutdownCEF info s).2.nextClientId = s.nextClientId ∧
    (s.g_cef_initialized = false → ShutdownCEF info s = (.ok (.boolean true), s)) ∧
    ShutdownCEF info2 (ShutdownCEF info s).2 = (.ok (.boolean true), (ShutdownCEF info s).2) ∧
    (GetContexts info2 (ShutdownCEF info s).2).1 = (GetContexts info2 s).1 ∧
    (s.WF → ∀ k ∈ StdMap.keys s.g_contexts,
      (DisposeContext [.string k] (ShutdownCEF info s).2).1 = .ok (.boolean true) ∧
      k ∉ StdMap.keys (DisposeContext [.string k] (ShutdownCEF info s).2).2.g_contexts) := by
  have hctx : (ShutdownCEF info s).2.g_contexts = s.g_contexts := by
    unfold ShutdownCEF
    split <;> rfl
  have hoff : (ShutdownCEF info s).2.g_cef_initialized = false := by
    unfold ShutdownCEF
    split
    · rename_i hn
      simpa using hn
    · rfl
  refine ⟨ShutdownCEF_ok s info, hctx, ?_, ?_, ?_, ?_, ?_, ?_⟩
  · unfold ShutdownCEF
    split <;> rfl
  · unfold ShutdownCEF
    split <;> rfl
  · intro h
    simp [ShutdownCEF, h]
  · generalize (ShutdownCEF info s).2 = t at hoff
    simp [ShutdownCEF, hoff]
  · simp [GetContexts, hctx]
  · intro hwf k hk
    obtain ⟨ctx, hfind⟩ := StdMap.find_isSome_of_mem s.g_contexts k hwf.1 hk
    generalize (ShutdownCEF info s).2 = t at hctx
    have hfind2 : StdMap.find t.g_contexts k = some ctx := by rw [hctx]; exact hfind
    rw [DisposeContext_found t k [] ctx hfind2]
    refine ⟨rfl, ?_⟩
    simp only [hctx]
    exact StdMap.not_mem_keys_erase s.g_contexts k hwf.1

/-- C10 for the context `cacheA` created before the shutdown. -/
theorem C10_shutdown_frame_witness :
    (run initialState [.initCEF [] (-1) true, .createContext [.string "cacheA"] 0]).WF ∧
    (DisposeContext [.string "cacheA"]
      (ShutdownCEF []
        (run initialState [.initCEF [] (-1) true, .createContext [.string "cacheA"] 0])).2).1
      = .ok (.boolean true) :=
  have hw := WF_run initialState [.initCEF [] (-1) true, .createContext [.string "cacheA"] 0]
    WF_initialState
  ⟨hw, ((C10_shutdown_frame _ [] []).2.2.2.2.2.2.2 hw "cacheA"
    (by simp [run, step, InitCEF, initialState, readOptions, CreateContext, arg,
          JsValue.IsString, Utf8Value, make_key_from_path, StdMap.assign, StdMap.keys])).1⟩

/-! ## C4 and C5: the context registry -/

theorem GetContexts_eq (s : AdapterState) (info : List JsValue) :
    GetContexts info s = (.ok (.array ((StdMap.keys s.g_contexts).map .string)), s) := rfl

/-- C4: in an initialized adapter, for every string `k`, `CreateContext(k)` returns
`k` itself; `GetContexts` then lists `k` exactly once; `DisposeContext(k)` then
returns `true` and `GetContexts` no longer lists `k`; and a second `DisposeContext(k)`
throws the unknown-context error. -/
theorem C4_context_key_stability (s : AdapterState) (k : String) (ctx : Handle)
    (hinit : s.g_cef_initialized = true) (hwf : s.WF) :
    ∃ s1 s2 : AdapterState,
      CreateContext [.string k] ctx s = (.ok (.string k), s1) ∧
      (∃ ks : List String, GetContexts [] s1 = (.ok (.array (ks.map .string)), s1) ∧ ks.count k = 1) ∧
      DisposeContext [.string k] s1 = (.ok (.boolean true), s2) ∧
      (∃ ks : List String, GetContexts [] s2 = (.ok (.array (ks.map .string)), s2) ∧ k ∉ ks) ∧
      DisposeContext [.string k] s2 = (.error unknownContextError, s2) := by
  have hwf1 : StdMap.WF (StdMap.assign s.g_contexts k ctx) := StdMap.WF_assign _ _ _ hwf.1
  let s1 : AdapterState :=
    { s with g_contexts := StdMap.assign s.g_contexts k ctx
             engineCalls := s.engineCalls ++ [.CreateContext k] }
  let s2 : AdapterState := { s1 with g_contexts := StdMap.erase s1.g_contexts k }
  exact ⟨s1, s2, CreateContext_string s k [] ctx hinit,
    ⟨_, GetContexts_eq s1 [], StdMap.count_keys_assign _ _ _ hwf.1⟩,
    DisposeContext_found s1 k [] ctx (StdMap.find_assign_self _ _ _),
    ⟨_, GetContexts_eq s2 [], StdMap.not_mem_keys_erase _ _ hwf1⟩,
    DisposeContext_missing s2 k [] (StdMap.find_erase_self _ _ hwf1)⟩

/-- C4 for the key `cacheA` in the state reached by one successful init. -/
theorem C4_context_key_stability_witness :
    (run initialState [.initCEF [] (-1) true]).g_cef_initialized = true ∧
    (run initialState [.initCEF [] (-1) true]).WF ∧
    ∃ s1 s2 : AdapterState,
      CreateContext [.string "cacheA"] 0 (run initialState [.initCEF [] (-1) true])
        = (.ok (.string "cacheA"), s1) ∧
      (∃ ks : List String, GetContexts [] s1 = (.ok (.array (ks.map .string)), s1) ∧ ks.count "cacheA" = 1) ∧
      DisposeContext [.string "cacheA"] s1 = (.ok (.boolean true), s2) ∧
      (∃ ks : List String, GetContexts [] s2 = (.ok (.array (ks.map .string)), s2) ∧ "cacheA" ∉ ks) ∧
      DisposeContext [.string "cacheA"] s2 = (.error unknownContextError, s2) :=
  have hi : (run initialState [.initCEF [] (-1) true]).g_cef_initialized = true := by
    simp [run, step, InitCEF, initialState, readOptions]
  have hw := WF_run initialState [.initCEF [] (-1) true] WF_initialState
  ⟨hi, hw, C4_context_key_stability _ "cacheA" 0 hi hw⟩

/-- C5: in an initialized adapter, for every string `k` and every registry content,
two `CreateContext(k)` calls in a row both return `k`; afterwards the registry maps
`k` to the handle of the second call, `GetContexts` lists `k` exactly once, the other
keys are listed as before the two calls, and they map to the handles they had. -/
theorem C5_context_overwrite (s : AdapterState) (k : String) (ctx1 ctx2 : Handle)
    (hinit : s.g_cef_initialized = true) (hwf : s.WF) :
    ∃ s1 s2 : AdapterState,
      CreateContext [.string k] ctx1 s = (.ok (.string k), s1) ∧
      CreateContext [.string k] ctx2 s1 = (.ok (.string k), s2) ∧
      StdMap.find s2.g_contexts k = some ctx2 ∧
      (∃ ks : List String, GetContexts [] s2 = (.ok (.array (ks.map .string)), s2) ∧ ks.count k = 1 ∧
        ks.filter (fun j => decide (j ≠ k)) =
          (StdMap.keys s.g_contexts).filter (fun j => decide (j ≠ k))) ∧
      (∀ j, j ≠ k → StdMap.find s2.g_contexts j = StdMap.find s.g_contexts j) := by
  have hwf1 : StdMap.WF (StdMap.assign s.g_contexts k ctx1) := StdMap.WF_assign _ _ _ hwf.1
  let s1 : AdapterState :=
    { s with g_contexts := StdMap.assign s.g_contexts k ctx1
             engineCalls := s.engineCalls ++ [.CreateContext k] }
  let s2 : AdapterState :=
    { s1 with g_contexts := StdMap.assign s1.g_contexts k ctx2
              engineCalls := s1.engineCalls ++ [.CreateContext k] }
  refine ⟨s1, s2, CreateContext_string s k [] ctx1 hinit,
    CreateContext_string s1 k [] ctx2 hinit, StdMap.find_assign_self _ _ _,
    ⟨_, GetContexts_eq s2 [], StdMap.count_keys_assign _ _ _ hwf1, ?_⟩, ?_⟩
  · exact (StdMap.keys_assign_filter _ k ctx2).trans (StdMap.keys_assign_filter _ k ctx1)
  · intro j hj
    exact (StdMap.find_assign_of_ne _ k j ctx2 hj).trans
      (StdMap.find_assign_of_ne _ k j ctx1 hj)

/-- C5 for the key `cacheA`, with handles 1 and 2, in the state reached by one
successful init. -/
theorem C5_context_overwrite_witness :
    (run initialState [.initCEF [] (-1) true]).g_cef_initialized = true ∧
    (run initialState [.initCEF [] (-1) true]).WF ∧
    ∃ s1 s2 : AdapterState,
      CreateContext [.string "cacheA"] 1 (run initialState [.initCEF [] (-1) true])
        = (.ok (.string "cacheA"), s1) ∧
      CreateContext [.string "cacheA"] 2 s1 = (.ok (.string "cacheA"), s2) ∧
      StdMap.find s2.g_contexts "cacheA" = some 2 :=
  have hi : (run initialState [.initCEF [] (-1) true]).g_cef_initialized = true := by
    simp [run, step, InitCEF, initialState, readOptions]
  have hw := WF_run initialState [.initCEF [] (-1) true] WF_initialState
  have ⟨s1, s2, h1, h2, h3, _⟩ := C5_context_overwrite _ "cacheA" 1 2 hi hw
  ⟨hi, hw, s1, s2, h1, h2, h3⟩

/-! ## C7: the browser registry -/

/-- C7: for every engine browser id `i`, handle `h` and registry content, after
`OnAfterCreated(i, h)` the browser registry maps `i` to `h`; after a following
`OnBeforeClose(i)` it has no entry for `i`; the entries of every other id are the same
after either signal as before it; and `OnBeforeClose(i)` on a registry without `i`
returns the state unchanged, without an error. -/
theorem C7_browser_registry (s : AdapterState) (i : Int) (h : Handle) (hwf : s.WF) :
    StdMap.find (OnAfterCreated i h s).browser_map i = some h ∧
    StdMap.find (OnBeforeClose i (OnAfterCreated i h s)).browser_map i = none ∧
    i ∉ StdMap.keys (OnBeforeClose i (OnAfterCreated i h s)).browser_map ∧
    (∀ j, j ≠ i →
      StdMap.find (OnAfterCreated i h s).browser_map j = StdMap.find s.browser_map j ∧
      StdMap.find (OnBeforeClose i s).browser_map j = StdMap.find s.browser_map j ∧
      StdMap.find (OnBeforeClose i (OnAfterCreated i h s)).browser_map j =
        StdMap.find s.browser_map j) ∧
    (StdMap.find s.browser_map i = none →
      step s (.onBeforeClose i) = (.ok .undefined, s)) := by
  have hwf1 : StdMap.WF (StdMap.assign s.browser_map i h) := StdMap.WF_assign _ _ _ hwf.2
  refine ⟨StdMap.find_assign_self _ _ _, StdMap.find_erase_self _ _ hwf1,
    StdMap.not_mem_keys_erase _ _ hwf1, ?_, ?_⟩
  · intro j hj
    refine ⟨StdMap.find_assign_of_ne _ i j h hj, StdMap.find_erase_of_ne _ i j hwf.2 hj, ?_⟩
    exact (StdMap.find_erase_of_ne _ i j hwf1 hj).trans (StdMap.find_assign_of_ne _ i j h hj)
  · intro hnone
    simp only [step, OnBeforeClose, StdMap.erase_of_find_eq_none _ _ hnone]

/-- C7 for the engine browser id 7 on the empty registry. -/
theorem C7_browser_registry_witness :
    initialState.WF ∧
    StdMap.find (OnAfterCreated 7 42 initialState).browser_map 7 = some 42 ∧
    StdMap.find (OnBeforeClose 7 (OnAfterCreated 7 42 initialState)).browser_map 7 = none :=
  have h := C7_browser_registry initialState 7 42 WF_initialState
  ⟨WF_initialState, h.1, h.2.1⟩

/-! ## C6: correlation ids -/

end CefNodeBinding
